import Mathlib

/-!
Verification of the ITN (insecticide-treated net) coverage pipeline:
name reconciliation, record extraction, aggregation and coverage
classification, shallowly embedded from `streamlit_app.py`.
-/

/-- The whitespace class used by Python's `str.strip` and `\s`. -/
def isPySpace (c : Char) : Bool :=
  c = ' ' || c = '\t' || c = '\n' || c = '\r' || c = '\x0b' || c = '\x0c'

/-- Remove leading and trailing whitespace from a character list. -/
def pyStripList (cs : List Char) : List Char :=
  ((cs.dropWhile isPySpace).reverse.dropWhile isPySpace).reverse

/-- Python `str.strip()`. -/
def pyStrip (s : String) : String :=
  ⟨pyStripList s.data⟩

/-- Python `str.upper()` (ASCII). -/
def pyUpper (s : String) : String :=
  ⟨s.data.map Char.toUpper⟩

/-- Contiguous-sublist test on character lists. -/
def infixOfCh (a : List Char) : List Char → Bool
  | [] => a.isEmpty
  | c :: t => a.isPrefixOf (c :: t) || infixOfCh a t

/-- Python substring containment `a in b` on strings. -/
def pyIn (a b : String) : Bool :=
  infixOfCh a.data b.data

/-- The alias table from `create_chiefdom_mapping`, in source (insertion)
order: free-text chiefdom name to canonical shapefile name. -/
def create_chiefdom_mapping : List (String × String) :=
  [ ("Bo City", "BO TOWN"),
    ("Badjia", "BADJIA"),
    ("Bargbo", "BAGBO"),
    ("Bagbwe", "BAGBWE(BAGBE)"),
    ("Baoma", "BOAMA"),
    ("Bongor", "BONGOR"),
    ("Bumpeh", "BUMPE NGAO"),
    ("Gbo", "GBO"),
    ("Jaiama", "JAIAMA"),
    ("Kakua", "KAKUA"),
    ("Komboya", "KOMBOYA"),
    ("Lugbu", "LUGBU"),
    ("Niawa Lenga", "NIAWA LENGA"),
    ("Selenga", "SELENGA"),
    ("Tinkoko", "TIKONKO"),
    ("Valunia", "VALUNIA"),
    ("Wonde", "WONDE"),
    ("Biriwa", "BIRIWA"),
    ("Bombali Sebora", "BOMBALI SEBORA"),
    ("Bombali Serry", "BOMBALI SIARI"),
    ("Gbanti (Bombali)", "GBANTI"),
    ("Gbanti", "GBANTI"),
    ("Gbendembu", "GBENDEMBU"),
    ("Kamaranka", "KAMARANKA"),
    ("Magbaimba Ndohahun", "MAGBAIMBA NDORWAHUN"),
    ("Makarie", "MAKARI"),
    ("Mara", "MARA"),
    ("Ngowahun", "N'GOWAHUN"),
    ("Paki Masabong", "PAKI MASABONG"),
    ("Safroko Limba", "SAFROKO LIMBA"),
    ("Makeni City", "MAKENI CITY") ]

/-- `map_chiefdom_name` from the source: `None` passes through; otherwise
strip, then try in order (first hit wins): case-sensitive exact key match,
case-insensitive exact key match, case-insensitive bidirectional substring
match over the table in insertion order; fall back to the stripped input. -/
def map_chiefdom_name (chiefdom_name : Option String)
    (mapping : List (String × String)) : Option String :=
  match chiefdom_name with
  | none => none
  | some raw =>
    let s := pyStrip raw
    match mapping.find? (fun kv => kv.1 = s) with
    | some kv => some kv.2
    | none =>
      match mapping.find? (fun kv => pyUpper kv.1 = pyUpper s) with
      | some kv => some kv.2
      | none =>
        match mapping.find? (fun kv =>
            pyIn (pyUpper kv.1) (pyUpper s) || pyIn (pyUpper s) (pyUpper kv.1)) with
        | some kv => some kv.2
        | none => some s

/-- `get_coverage_color` from the source: six half-open buckets, the last
one for coverage of 100 or more (purple). -/
def get_coverage_color (coverage_percent : ℚ) : String :=
  if coverage_percent < 20 then "#d32f2f"
  else if coverage_percent < 40 then "#f57c00"
  else if coverage_percent < 60 then "#fbc02d"
  else if coverage_percent < 80 then "#388e3c"
  else if coverage_percent < 100 then "#1976d2"
  else "#4a148c"

/-- The status block of the detailed ITN coverage table in the source:
five labels only, with every coverage of 80 or more labelled Excellent. -/
def coverage_status (coverage : ℚ) : String :=
  if coverage ≥ 80 then "✅ Excellent"
  else if coverage ≥ 60 then "🟢 Good"
  else if coverage ≥ 40 then "🟡 Fair"
  else if coverage ≥ 20 then "🟠 Poor"
  else "🔴 Critical"

/-- Model of Python `re.search(label + r"\s*([^\n]+)", text)` over character
lists: scan left to right for the literal label followed by optional
whitespace and a nonempty run of non-newline characters; return the captured
group of the first position where the whole pattern matches.  When the text
after the label is a nonempty all-whitespace tail, the pattern still matches
iff that tail has a character other than a newline; the captured group is
then whitespace-only, and since every caller strips the group the model
returns the empty capture for that degenerate case. -/
def searchCapture (label : List Char) : List Char → Option (List Char)
  | [] => none
  | c :: t =>
    if label.isPrefixOf (c :: t) then
      let rest := List.drop label.length (c :: t)
      match (rest.dropWhile isPySpace).takeWhile (fun ch => ch != '\n') with
      | [] =>
        if rest.any (fun ch => ch != '\n') then some []
        else searchCapture label t
      | v => some v
    else searchCapture label t

/-- One raw survey row: the QR payload cell (`none` models a missing /
NaN cell) and the per-class numeric cells (`none` models a NaN cell). -/
structure SurveyRow where
  qr_text : Option String
  enroll : Nat → Option Int
  boys : Nat → Option Int
  girls : Nat → Option Int
  left_itns : Option Int

/-- The raw survey table: which of the per-class columns and the
left-at-school column are present in the sheet, plus the rows. -/
structure SurveyFrame where
  hasEnrollCol : Nat → Bool
  hasBoysCol : Nat → Bool
  hasGirlsCol : Nat → Bool
  hasLeftCol : Bool
  rows : List SurveyRow

/-- One normalized output row of `extract_itn_data_from_excel`. -/
structure NormalizedRow where
  district : Option String
  chiefdom : Option String
  total_enrollment : Int
  total_itns : Int
  distributed_itns : Int
deriving DecidableEq

/-- The class indices iterated by the extractor, `range(1, 6)`. -/
def classRange : List Nat := [1, 2, 3, 4, 5]

/-- The `enrollment_total` accumulation loop of the extractor. -/
def enrollmentTotal (df : SurveyFrame) (r : SurveyRow) : Int :=
  classRange.foldl (fun acc n =>
    if df.hasEnrollCol n then
      match r.enroll n with
      | some v => acc + v
      | none => acc
    else acc) 0

/-- The `itns_boys_total` accumulation loop of the extractor. -/
def itnsBoysTotal (df : SurveyFrame) (r : SurveyRow) : Int :=
  classRange.foldl (fun acc n =>
    if df.hasBoysCol n then
      match r.boys n with
      | some v => acc + v
      | none => acc
    else acc) 0

/-- The `itns_girls_total` accumulation loop of the extractor. -/
def itnsGirlsTotal (df : SurveyFrame) (r : SurveyRow) : Int :=
  classRange.foldl (fun acc n =>
    if df.hasGirlsCol n then
      match r.girls n with
      | some v => acc + v
      | none => acc
    else acc) 0

/-- The `itns_left_total` assignment of the extractor: a single per-school
value read outside the class loop (assignment, not accumulation). -/
def itnsLeftTotal (df : SurveyFrame) (r : SurveyRow) : Int :=
  if df.hasLeftCol then
    match r.left_itns with
    | some v => v
    | none => 0
  else 0

/-- The body of the extraction loop for one row: a missing QR payload emits
the all-null zero row; otherwise the district and chiefdom are parsed from
the payload, the chiefdom is canonicalized, and the totals are accumulated
with the left-at-school value added exactly once. -/
def extractRow (df : SurveyFrame) (r : SurveyRow) : NormalizedRow :=
  match r.qr_text with
  | none => ⟨none, none, 0, 0, 0⟩
  | some qr =>
    let district := (searchCapture ("District:".data) qr.data).map
      (fun g => pyStrip ⟨g⟩)
    let original_chiefdom := (searchCapture ("Chiefdom:".data) qr.data).map
      (fun g => pyStrip ⟨g⟩)
    let mapped := map_chiefdom_name original_chiefdom create_chiefdom_mapping
    let b := itnsBoysTotal df r
    let g := itnsGirlsTotal df r
    let l := itnsLeftTotal df r
    ⟨district, mapped, enrollmentTotal df r, b + g + l, b + g + l⟩

/-- `extract_itn_data_from_excel`: one normalized row per input row. -/
def extract_itn_data_from_excel (df : SurveyFrame) : List NormalizedRow :=
  df.rows.map (extractRow df)

/-- District filter `itn_df[itn_df["District"].str.upper() == district.upper()]`;
a null district never matches. -/
def districtFilter (itn_df : List NormalizedRow) (district : String) :
    List NormalizedRow :=
  itn_df.filter (fun r =>
    match r.district with
    | some d => pyUpper d == pyUpper district
    | none => false)

/-- Chiefdom filter `district_data[district_data["Chiefdom"] == chiefdom]`;
a null chiefdom never matches. -/
def chiefdomFilter (rows : List NormalizedRow) (chiefdom : String) :
    List NormalizedRow :=
  rows.filter (fun r => r.chiefdom == some chiefdom)

/-- `int(rows["Total_Enrollment"].sum())`. -/
def sumEnrollment (rows : List NormalizedRow) : Int :=
  (rows.map (fun r => r.total_enrollment)).sum

/-- `int(rows["Total_ITNs"].sum())`. -/
def sumTotalITNs (rows : List NormalizedRow) : Int :=
  (rows.map (fun r => r.total_itns)).sum

/-- `int(rows["Distributed_ITNs"].sum())`. -/
def sumDistributed (rows : List NormalizedRow) : Int :=
  (rows.map (fun r => r.distributed_itns)).sum

/-- The guarded coverage formula used at every aggregation level:
`(distributed / enrollment * 100) if enrollment > 0 else 0`. -/
def coverage_of (distributed enrollment : Int) : ℚ :=
  if enrollment > 0 then (distributed : ℚ) / (enrollment : ℚ) * 100 else 0

/-- District-level coverage from `generate_simple_summary`. -/
def districtCoverage (itn_df : List NormalizedRow) (district : String) : ℚ :=
  coverage_of (sumDistributed (districtFilter itn_df district))
    (sumEnrollment (districtFilter itn_df district))

/-- Chiefdom-level coverage from the detailed coverage table. -/
def chiefdomCoverage (itn_df : List NormalizedRow) (district chiefdom : String) : ℚ :=
  coverage_of (sumDistributed (chiefdomFilter (districtFilter itn_df district) chiefdom))
    (sumEnrollment (chiefdomFilter (districtFilter itn_df district) chiefdom))

/-- Overall coverage from the summary metrics block. -/
def overallCoverage (itn_df : List NormalizedRow) : ℚ :=
  coverage_of (sumDistributed itn_df) (sumEnrollment itn_df)

/-- The dashboard's per-chiefdom coverage before clamping, built from the
`Total_ITNs` column (the empty-group guards on the sums are redundant since
an empty sum is zero). -/
def dashboardCoverageRaw (itn_df : List NormalizedRow)
    (district chiefdom : String) : ℚ :=
  coverage_of (sumTotalITNs (chiefdomFilter (districtFilter itn_df district) chiefdom))
    (sumEnrollment (chiefdomFilter (districtFilter itn_df district) chiefdom))

/-- The dashboard's per-chiefdom coverage after `min(coverage, 100)`,
the value fed to `get_coverage_color` and the center label. -/
def dashboardCoveragePercent (itn_df : List NormalizedRow)
    (district chiefdom : String) : ℚ :=
  min (dashboardCoverageRaw itn_df district chiefdom) 100

/-- Row A of the end-to-end scenario: district BO, raw chiefdom Bo City,
class-1 enrollment 50, class-1 boys 20, class-1 girls 15, left 5. -/
def rowA : SurveyRow where
  qr_text := some "District: BO\nChiefdom: Bo City"
  enroll := fun n => if n = 1 then some 50 else none
  boys := fun n => if n = 1 then some 20 else none
  girls := fun n => if n = 1 then some 15 else none
  left_itns := some 5

/-- Row B of the end-to-end scenario: district BO, raw chiefdom Bargbo,
class-1 enrollment 30, class-1 boys 10, class-1 girls 10, left 2. -/
def rowB : SurveyRow where
  qr_text := some "District: BO\nChiefdom: Bargbo"
  enroll := fun n => if n = 1 then some 30 else none
  boys := fun n => if n = 1 then some 10 else none
  girls := fun n => if n = 1 then some 10 else none
  left_itns := some 2

/-- The end-to-end scenario table: both rows, all columns present. -/
def frameAB : SurveyFrame where
  hasEnrollCol := fun _ => true
  hasBoysCol := fun _ => true
  hasGirlsCol := fun _ => true
  hasLeftCol := true
  rows := [rowA, rowB]

/-- A left fold whose step adds a function of the element is the sum of
that function over the list. -/
lemma foldl_add_eq_sum (g : Nat → Int) (f : Int → Nat → Int)
    (hf : ∀ acc n, f acc n = acc + g n) :
    ∀ (l : List Nat) (init : Int), l.foldl f init = init + (l.map g).sum := by
  intro l
  induction l with
  | nil => intro init; simp
  | cons a t ih =>
    intro init
    simp only [List.foldl_cons, List.map_cons, List.sum_cons, hf, ih]
    ring

/-- The boys accumulation loop equals the per-class sum of the boys cells
that are present. -/
lemma itnsBoysTotal_as_sum (df : SurveyFrame) (r : SurveyRow) :
    itnsBoysTotal df r =
      (classRange.map (fun n => if df.hasBoysCol n then (r.boys n).getD 0 else 0)).sum := by
  have h := foldl_add_eq_sum
    (fun n => if df.hasBoysCol n then (r.boys n).getD 0 else 0)
    (fun acc n =>
      if df.hasBoysCol n then
        match r.boys n with
        | some v => acc + v
        | none => acc
      else acc)
    (by
      intro acc n
      cases hb : r.boys n <;> cases hc : df.hasBoysCol n <;> simp [hb, hc])
    classRange 0
  simpa [itnsBoysTotal] using h

/-- The girls accumulation loop equals the per-class sum of the girls cells
that are present. -/
lemma itnsGirlsTotal_as_sum (df : SurveyFrame) (r : SurveyRow) :
    itnsGirlsTotal df r =
      (classRange.map (fun n => if df.hasGirlsCol n then (r.girls n).getD 0 else 0)).sum := by
  have h := foldl_add_eq_sum
    (fun n => if df.hasGirlsCol n then (r.girls n).getD 0 else 0)
    (fun acc n =>
      if df.hasGirlsCol n then
        match r.girls n with
        | some v => acc + v
        | none => acc
      else acc)
    (by
      intro acc n
      cases hg : r.girls n <;> cases hc : df.hasGirlsCol n <;> simp [hg, hc])
    classRange 0
  simpa [itnsGirlsTotal] using h

/-- The left-at-school read equals the single cell value with absent column
or absent value contributing zero. -/
lemma itnsLeftTotal_as_cell (df : SurveyFrame) (r : SurveyRow) :
    itnsLeftTotal df r = (if df.hasLeftCol then (r.left_itns).getD 0 else 0) := by
  cases hl : r.left_itns <;> cases hc : df.hasLeftCol <;> simp [itnsLeftTotal, hl, hc]

/-- C1: for every survey record with a payload, the extracted
total_distributed equals the per-class boys sum plus the per-class girls
sum plus the left-at-school value added exactly once, for any combination
of present class columns. -/
theorem distributed_left_counted_once (df : SurveyFrame) (r : SurveyRow) (q : String)
    (h : r.qr_text = some q) :
    (extractRow df r).distributed_itns =
      (classRange.map (fun n => if df.hasBoysCol n then (r.boys n).getD 0 else 0)).sum
        + (classRange.map (fun n => if df.hasGirlsCol n then (r.girls n).getD 0 else 0)).sum
        + (if df.hasLeftCol then (r.left_itns).getD 0 else 0) := by
  simp only [extractRow, h]
  rw [itnsBoysTotal_as_sum, itnsGirlsTotal_as_sum, itnsLeftTotal_as_cell]

/-- Witness for C1 at the concrete scenario row A. -/
theorem distributed_left_counted_once_witness :
    (extractRow frameAB rowA).distributed_itns =
      (classRange.map (fun n => if frameAB.hasBoysCol n then (rowA.boys n).getD 0 else 0)).sum
        + (classRange.map (fun n => if frameAB.hasGirlsCol n then (rowA.girls n).getD 0 else 0)).sum
        + (if frameAB.hasLeftCol then (rowA.left_itns).getD 0 else 0) :=
  distributed_left_counted_once frameAB rowA "District: BO\nChiefdom: Bo City" rfl

/-- C2: the color classifier has six half-open lower-inclusive buckets with
a distinct sixth bucket at 100, but the status-label block of the detailed
table has only five buckets, so coverage 100 gets the same Excellent label
as coverage 85 instead of a distinct outstanding label. -/
theorem coverage_classifier_boundaries :
    get_coverage_color (19.999 : ℚ) = "#d32f2f" ∧
    get_coverage_color 20 = "#f57c00" ∧
    get_coverage_color (99.999 : ℚ) = "#1976d2" ∧
    get_coverage_color 100 = "#4a148c" ∧
    get_coverage_color 100 ≠ get_coverage_color 85 ∧
    coverage_status (19.999 : ℚ) = "🔴 Critical" ∧
    coverage_status 20 = "🟠 Poor" ∧
    coverage_status (99.999 : ℚ) = "✅ Excellent" ∧
    coverage_status 100 = "✅ Excellent" ∧
    coverage_status 100 = coverage_status 85 := by
  refine ⟨?_, ?_, ?_, ?_, ?_, ?_, ?_, ?_, ?_, ?_⟩ <;>
    simp only [get_coverage_color, coverage_status] <;> (norm_num; try decide)

/-- C3: the name resolver passes null through, and the layered matching
policy (exact, then case-insensitive exact, then bidirectional substring in
insertion order, then pass-through of the trimmed input) yields the
documented examples. -/
theorem alias_resolution_policy_examples :
    map_chiefdom_name none create_chiefdom_mapping = none ∧
    map_chiefdom_name (some "Bo City") create_chiefdom_mapping = some "BO TOWN" ∧
    map_chiefdom_name (some "bargbo") create_chiefdom_mapping = some "BAGBO" ∧
    map_chiefdom_name (some "Gbanti (Bombali)") create_chiefdom_mapping = some "GBANTI" ∧
    map_chiefdom_name (some "  Bo City  ") create_chiefdom_mapping = some "BO TOWN" ∧
    map_chiefdom_name (some "Unknown Place") create_chiefdom_mapping = some "Unknown Place" := by
  refine ⟨rfl, ?_, ?_, ?_, ?_, ?_⟩ <;> decide

/-- C10: an empty or whitespace-only chiefdom name is not passed through:
after trimming it is a substring of every alias key, so the substring stage
returns the first table entry's canonical value BO TOWN. -/
theorem empty_chiefdom_matches_first_alias :
    map_chiefdom_name (some "") create_chiefdom_mapping = some "BO TOWN" ∧
    map_chiefdom_name (some "   ") create_chiefdom_mapping = some "BO TOWN" ∧
    map_chiefdom_name (some " \t\n ") create_chiefdom_mapping = some "BO TOWN" := by
  refine ⟨?_, ?_, ?_⟩ <;> decide

/-- Audit component: the boys contribution of one input row to the output
(zero for a row with a missing payload, which the extractor skips). -/
def rowBoysComponent (df : SurveyFrame) (r : SurveyRow) : Int :=
  match r.qr_text with
  | none => 0
  | some _ => itnsBoysTotal df r

/-- Audit component: the girls contribution of one input row. -/
def rowGirlsComponent (df : SurveyFrame) (r : SurveyRow) : Int :=
  match r.qr_text with
  | none => 0
  | some _ => itnsGirlsTotal df r

/-- Audit component: the left-at-school contribution of one input row. -/
def rowLeftComponent (df : SurveyFrame) (r : SurveyRow) : Int :=
  match r.qr_text with
  | none => 0
  | some _ => itnsLeftTotal df r

/-- Each extracted row's distributed total is the sum of its three audit
components. -/
lemma extractRow_distributed_components (df : SurveyFrame) (r : SurveyRow) :
    (extractRow df r).distributed_itns =
      rowBoysComponent df r + rowGirlsComponent df r + rowLeftComponent df r := by
  rcases r with ⟨qr, en, bo, gi, le⟩
  cases qr <;>
    simp [extractRow, rowBoysComponent, rowGirlsComponent, rowLeftComponent]

/-- Summing per-row distributed totals over any row list equals adding the
three independently summed components. -/
lemma sum_distributed_aux (df : SurveyFrame) (l : List SurveyRow) :
    ((l.map (extractRow df)).map (fun r => r.distributed_itns)).sum =
      (l.map (rowBoysComponent df)).sum + (l.map (rowGirlsComponent df)).sum
        + (l.map (rowLeftComponent df)).sum := by
  induction l with
  | nil => simp
  | cons r t ih =>
    simp only [List.map_cons, List.sum_cons, ih, extractRow_distributed_components]
    ring

/-- C4: the summed distributed count over any extracted row set is the same
integer whether the per-row boys+girls+left totals are summed, or each
component is summed independently across all rows and then added. -/
theorem sum_distributed_component_consistency (df : SurveyFrame) :
    ((extract_itn_data_from_excel df).map (fun r => r.distributed_itns)).sum =
      (df.rows.map (rowBoysComponent df)).sum
        + (df.rows.map (rowGirlsComponent df)).sum
        + (df.rows.map (rowLeftComponent df)).sum := by
  simpa [extract_itn_data_from_excel] using sum_distributed_aux df df.rows

/-- A row whose payload is missing extracts to the all-null zero row. -/
lemma extractRow_of_no_payload (df : SurveyFrame) (r : SurveyRow)
    (h : r.qr_text = none) : extractRow df r = ⟨none, none, 0, 0, 0⟩ := by
  rcases r with ⟨qr, en, bo, gi, le⟩
  cases h
  rfl

/-- C5: extraction emits exactly one output row per input row in order, and
an input row with a missing payload still yields the row
district=null, chiefdom=null, enrollment=0, distributed=0. -/
theorem missing_payload_row_still_emitted (df : SurveyFrame) :
    (extract_itn_data_from_excel df).length = df.rows.length ∧
    (∀ (i : Nat) (r : SurveyRow), df.rows[i]? = some r →
      (extract_itn_data_from_excel df)[i]? = some (extractRow df r)) ∧
    (∀ (i : Nat) (r : SurveyRow), df.rows[i]? = some r → r.qr_text = none →
      (extract_itn_data_from_excel df)[i]? = some ⟨none, none, 0, 0, 0⟩) := by
  refine ⟨by simp [extract_itn_data_from_excel], ?_, ?_⟩
  · intro i r h
    simp [extract_itn_data_from_excel, List.getElem?_map, h]
  · intro i r h hq
    simp [extract_itn_data_from_excel, List.getElem?_map, h,
      extractRow_of_no_payload df r hq]

/-- A survey row with a missing payload but populated numeric cells. -/
def rowNull : SurveyRow where
  qr_text := none
  enroll := fun _ => some 7
  boys := fun _ => some 3
  girls := fun _ => some 4
  left_itns := some 9

/-- A one-row table whose only row has a missing payload. -/
def frameNull : SurveyFrame where
  hasEnrollCol := fun _ => true
  hasBoysCol := fun _ => true
  hasGirlsCol := fun _ => true
  hasLeftCol := true
  rows := [rowNull]

/-- Witness for C5 at the one-row table with a missing payload. -/
theorem missing_payload_row_still_emitted_witness :
    (extract_itn_data_from_excel frameNull)[0]? =
      some ⟨none, none, 0, 0, 0⟩ :=
  (missing_payload_row_still_emitted frameNull).2.2 0 rowNull rfl rfl

/-- Both output total columns of one extracted row are the same value. -/
lemma extractRow_total_eq_distributed (df : SurveyFrame) (r : SurveyRow) :
    (extractRow df r).total_itns = (extractRow df r).distributed_itns := by
  rcases r with ⟨qr, en, bo, gi, le⟩
  cases qr <;> rfl

/-- C9: for every extracted row, the Total_ITNs and Distributed_ITNs
columns carry the same value, so every consumer reads the same distributed
count from either column. -/
theorem total_itns_eq_distributed_itns (df : SurveyFrame) (row : NormalizedRow)
    (h : row ∈ extract_itn_data_from_excel df) :
    row.total_itns = row.distributed_itns := by
  obtain ⟨r, _, rfl⟩ := List.mem_map.mp h
  exact extractRow_total_eq_distributed df r

/-- Witness for C9 at the first extracted row of the concrete scenario. -/
theorem total_itns_eq_distributed_itns_witness :
    (NormalizedRow.mk (some "BO") (some "BO TOWN") 50 40 40).total_itns =
      (NormalizedRow.mk (some "BO") (some "BO TOWN") 50 40 40).distributed_itns :=
  total_itns_eq_distributed_itns frameAB
    (NormalizedRow.mk (some "BO") (some "BO TOWN") 50 40 40) (by decide)

/-- The guarded formula at a positive enrollment is the ratio. -/
lemma coverage_of_pos (d e : Int) (h : 0 < e) :
    coverage_of d e = (d : ℚ) / (e : ℚ) * 100 :=
  if_pos h

/-- The guarded formula at zero enrollment is zero, not an error. -/
lemma coverage_of_zero (d e : Int) (h : e = 0) : coverage_of d e = 0 := by
  simp [coverage_of, h]

/-- C6: at the chiefdom, district and overall aggregation levels, coverage
is distributed / enrollment * 100 when the summed enrollment is positive
and is defined as 0 when the summed enrollment is zero, with no division
error possible. -/
theorem coverage_guarded_at_every_level (itn_df : List NormalizedRow)
    (district chiefdom : String) :
    (sumEnrollment itn_df = 0 → overallCoverage itn_df = 0) ∧
    (0 < sumEnrollment itn_df →
      overallCoverage itn_df =
        (sumDistributed itn_df : ℚ) / (sumEnrollment itn_df : ℚ) * 100) ∧
    (sumEnrollment (districtFilter itn_df district) = 0 →
      districtCoverage itn_df district = 0) ∧
    (0 < sumEnrollment (districtFilter itn_df district) →
      districtCoverage itn_df district =
        (sumDistributed (districtFilter itn_df district) : ℚ)
          / (sumEnrollment (districtFilter itn_df district) : ℚ) * 100) ∧
    (sumEnrollment (chiefdomFilter (districtFilter itn_df district) chiefdom) = 0 →
      chiefdomCoverage itn_df district chiefdom = 0) ∧
    (0 < sumEnrollment (chiefdomFilter (districtFilter itn_df district) chiefdom) →
      chiefdomCoverage itn_df district chiefdom =
        (sumDistributed (chiefdomFilter (districtFilter itn_df district) chiefdom) : ℚ)
          / (sumEnrollment (chiefdomFilter (districtFilter itn_df district) chiefdom) : ℚ)
          * 100) :=
  ⟨fun h => coverage_of_zero _ _ h,
   fun h => coverage_of_pos _ _ h,
   fun h => coverage_of_zero _ _ h,
   fun h => coverage_of_pos _ _ h,
   fun h => coverage_of_zero _ _ h,
   fun h => coverage_of_pos _ _ h⟩

/-- Witness for C6: empty groups give coverage 0 at all three levels, and a
positive-enrollment district group gives the ratio. -/
theorem coverage_guarded_at_every_level_witness :
    overallCoverage [] = 0 ∧
    districtCoverage [] "BO" = 0 ∧
    chiefdomCoverage [] "BO" "KAKUA" = 0 ∧
    districtCoverage (extract_itn_data_from_excel frameAB) "BO" =
      (62 : ℚ) / 80 * 100 := by
  have h := coverage_guarded_at_every_level [] "BO" "KAKUA"
  have h2 := coverage_guarded_at_every_level
    (extract_itn_data_from_excel frameAB) "BO" "BO TOWN"
  refine ⟨h.1 rfl, h.2.2.1 rfl, h.2.2.2.2.1 rfl, ?_⟩
  rw [h2.2.2.2.1 (by decide)]
  rw [show sumDistributed (districtFilter (extract_itn_data_from_excel frameAB) "BO")
        = (62 : Int) from by decide,
      show sumEnrollment (districtFilter (extract_itn_data_from_excel frameAB) "BO")
        = (80 : Int) from by decide]
  norm_num

/-- Equal per-row total columns give equal column sums. -/
lemma sumTotalITNs_eq_sumDistributed (rows : List NormalizedRow)
    (h : ∀ r ∈ rows, r.total_itns = r.distributed_itns) :
    sumTotalITNs rows = sumDistributed rows := by
  unfold sumTotalITNs sumDistributed
  induction rows with
  | nil => rfl
  | cons r t ih =>
    simp only [List.map_cons, List.sum_cons]
    rw [h r (by simp), ih (fun x hx => h x (by simp [hx]))]

/-- Every row of a chiefdom group of extracted rows satisfies the
Total_ITNs = Distributed_ITNs invariant. -/
lemma chiefdom_group_total_eq (df : SurveyFrame) (district chiefdom : String) :
    ∀ r ∈ chiefdomFilter
        (districtFilter (extract_itn_data_from_excel df) district) chiefdom,
      r.total_itns = r.distributed_itns := by
  intro r hr
  have h1 := List.mem_of_mem_filter hr
  have h2 := List.mem_of_mem_filter h1
  obtain ⟨rr, _, rfl⟩ := List.mem_map.mp h2
  exact extractRow_total_eq_distributed df rr

/-- The dashboard group coverage before clamping agrees with the detailed
table's unclamped coverage on extracted rows. -/
lemma dashboardRaw_eq_chiefdomCoverage (df : SurveyFrame)
    (district chiefdom : String) :
    dashboardCoverageRaw (extract_itn_data_from_excel df) district chiefdom =
      chiefdomCoverage (extract_itn_data_from_excel df) district chiefdom := by
  unfold dashboardCoverageRaw chiefdomCoverage
  rw [sumTotalITNs_eq_sumDistributed _ (chiefdom_group_total_eq df district chiefdom)]

/-- C7: the coverage driving the visual rendering is the table coverage
clamped to at most 100, the table coverage itself is not clamped, and the
two agree exactly whenever the unclamped ratio is at most 100. -/
theorem dashboard_clamps_display_only (df : SurveyFrame)
    (district chiefdom : String) :
    dashboardCoveragePercent (extract_itn_data_from_excel df) district chiefdom =
      min (chiefdomCoverage (extract_itn_data_from_excel df) district chiefdom) 100 ∧
    (chiefdomCoverage (extract_itn_data_from_excel df) district chiefdom ≤ 100 →
      dashboardCoveragePercent (extract_itn_data_from_excel df) district chiefdom =
        chiefdomCoverage (extract_itn_data_from_excel df) district chiefdom) := by
  constructor
  · unfold dashboardCoveragePercent
    rw [dashboardRaw_eq_chiefdomCoverage]
  · intro hle
    unfold dashboardCoveragePercent
    rw [dashboardRaw_eq_chiefdomCoverage]
    exact min_eq_left hle

/-- Witness for C7 at the concrete scenario BO TOWN group (coverage 80). -/
theorem dashboard_clamps_display_only_witness :
    dashboardCoveragePercent (extract_itn_data_from_excel frameAB) "BO" "BO TOWN" =
      chiefdomCoverage (extract_itn_data_from_excel frameAB) "BO" "BO TOWN" := by
  apply (dashboard_clamps_display_only frameAB "BO" "BO TOWN").2
  unfold chiefdomCoverage
  rw [show sumDistributed (chiefdomFilter
        (districtFilter (extract_itn_data_from_excel frameAB) "BO") "BO TOWN")
        = (40 : Int) from by decide,
      show sumEnrollment (chiefdomFilter
        (districtFilter (extract_itn_data_from_excel frameAB) "BO") "BO TOWN")
        = (50 : Int) from by decide]
  rw [coverage_of_pos _ _ (by norm_num)]
  norm_num

/-- C8: the two-row end-to-end scenario extracts the expected normalized
rows, and the BO district statistic is enrollment 80, distributed 62,
coverage 77.5 percent, in the good / light-green bucket. -/
theorem end_to_end_scenario :
    extract_itn_data_from_excel frameAB =
      [⟨some "BO", some "BO TOWN", 50, 40, 40⟩,
       ⟨some "BO", some "BAGBO", 30, 22, 22⟩] ∧
    sumEnrollment (districtFilter (extract_itn_data_from_excel frameAB) "BO") = 80 ∧
    sumDistributed (districtFilter (extract_itn_data_from_excel frameAB) "BO") = 62 ∧
    districtCoverage (extract_itn_data_from_excel frameAB) "BO" = 155 / 2 ∧
    get_coverage_color
      (districtCoverage (extract_itn_data_from_excel frameAB) "BO") = "#388e3c" ∧
    coverage_status
      (districtCoverage (extract_itn_data_from_excel frameAB) "BO") = "🟢 Good" := by
  have hc : districtCoverage (extract_itn_data_from_excel frameAB) "BO" = 155 / 2 := by
    unfold districtCoverage
    rw [show sumDistributed (districtFilter (extract_itn_data_from_excel frameAB) "BO")
          = (62 : Int) from by decide,
        show sumEnrollment (districtFilter (extract_itn_data_from_excel frameAB) "BO")
          = (80 : Int) from by decide]
    rw [coverage_of_pos _ _ (by norm_num)]
    norm_num
  refine ⟨by decide, by decide, by decide, hc, ?_, ?_⟩
  · rw [hc]
    simp only [get_coverage_color]
    norm_num
  · rw [hc]
    simp only [coverage_status]
    norm_num

